import Mathlib

/-!
Shallow embedding of the cloud-server HTTP service (src/index.js) and its
uptime-humanization helper, together with proofs checking the repository's
specification claims against it.

JavaScript numbers are modelled as rationals (`ℚ`); `Math.floor` is `⌊·⌋`
(`Int.floor`), and the JS remainder operator `%` (which truncates toward
zero) is modelled by `jsMod` below.  Timestamps (`new Date()`) and the
artificial `setTimeout` delays are real-time effects outside the shallow
embedding and are omitted from the response model; everything else in each
JSON response body is modelled.
-/

namespace CloudServer

/-- JavaScript truncation toward zero of a rational, as performed implicitly
by the `%` operator: `trunc q = floor q` for `0 ≤ q` and `-floor (-q)`
otherwise. -/
def jsTrunc (q : ℚ) : ℤ :=
  if 0 ≤ q then ⌊q⌋ else -⌊-q⌋

/-- The JavaScript remainder operator `a % b` on numbers:
`a - b * trunc (a / b)` (the sign follows the dividend). -/
def jsMod (a b : ℚ) : ℚ :=
  a - b * jsTrunc (a / b)

/-- Embedding of `formatUptime` (src/index.js lines 173-184):
`days = Math.floor(seconds / (3600 * 24))`,
`hours = Math.floor((seconds % (3600 * 24)) / 3600)`,
`minutes = Math.floor((seconds % 3600) / 60)`, then string accumulation
`result += ...` with a clause for days only when `days > 0`, for hours only
when `hours > 0`, always a final minutes clause, and the suffix letter s
added exactly when the count is `> 1`. -/
def formatUptime (seconds : ℚ) : String :=
  let days := ⌊seconds / (3600 * 24)⌋
  let hours := ⌊jsMod seconds (3600 * 24) / 3600⌋
  let minutes := ⌊jsMod seconds 3600 / 60⌋
  let result := ""
  let result := if days > 0 then result ++ toString days ++ " day" ++ (if days > 1 then "s" else "") ++ ", " else result
  let result := if hours > 0 then result ++ toString hours ++ " hour" ++ (if hours > 1 then "s" else "") ++ ", " else result
  result ++ toString minutes ++ " minute" ++ (if minutes > 1 then "s" else "")

/-- Mathematical floored remainder `a % b = a - b * ⌊a / b⌋`, the reading of
`%` used in the specification's algorithm description. -/
def specMod (a b : ℚ) : ℚ :=
  a - b * ⌊a / b⌋

/-- One clause of the specification's output format: the count, the unit
word (with its leading space), and the suffix letter s exactly when the
count is `> 1`. -/
def specClause (n : ℤ) (unit : String) : String :=
  toString n ++ unit ++ (if n > 1 then "s" else "")

/-- The uptime humanization exactly as the specification words it:
`days = floor(seconds / 86400)`, `hours = floor(seconds % 86400 / 3600)`,
`minutes = floor(seconds % 3600 / 60)`; concatenation of a day clause
followed by a separator only when `days > 0`, then an hour clause followed
by a separator only when `hours > 0`, then always a final minutes clause
with no trailing separator. -/
def specFormatUptime (seconds : ℚ) : String :=
  let days := ⌊seconds / 86400⌋
  let hours := ⌊specMod seconds 86400 / 3600⌋
  let minutes := ⌊specMod seconds 3600 / 60⌋
  (if days > 0 then specClause days (" day") ++ ", " else "")
    ++ (if hours > 0 then specClause hours (" hour") ++ ", " else "")
    ++ specClause minutes (" minute")

/-- HTTP request methods relevant to the routes of src/index.js.  `other`
stands for any further method (DELETE, PUT, ...) that reaches the routing
stack unhandled; OPTIONS preflight and HEAD are intercepted by the cors and
static middleware and are outside this model. -/
inductive Method where
  | get
  | post
  | other
deriving DecidableEq

/-- The request body as seen by the `express.json()` body-parsing layer:
absent, well-formed JSON, or a body with a JSON content type that fails to
parse (carrying the parse-failure description used as `err.message`). -/
inductive ReqBody where
  | empty
  | wellFormedJson
  | malformedJson (errMsg : String)
deriving DecidableEq

/-- Whether the body-parsing layer accepts the body without raising. -/
def ReqBody.parsesOk : ReqBody → Bool
  | .malformedJson _ => false
  | _ => true

/-- An incoming HTTP request. -/
structure Request where
  method : Method
  path : String
  body : ReqBody
deriving DecidableEq

/-- A JSON value restricted to the leaf shapes this server emits in the
stats payload: a number or a string.  JavaScript's `toFixed` returns a
string, so the distinction is observable in the response. -/
inductive JsVal where
  | num (q : ℚ)
  | str (s : String)
deriving DecidableEq

/-- JavaScript `x.toFixed(1)` for `0 ≤ x < 10^20`: round to the nearest
multiple of 1/10 (ties toward the larger value, per the ECMA ToFixed
algorithm) and print one digit after the decimal point.  Only non-negative
arguments appear in this program. -/
def toFixed1 (q : ℚ) : String :=
  let n := round (q * 10)
  toString (n / 10) ++ "." ++ toString (n % 10)

/-- The ambient host/environment state a single request observes: the
configured NODE_ENV string, the set of file paths available under the
public directory, the OS memory counters in bytes (`os.totalmem()`,
`os.freemem()`), the four `Math.random()` draws the stats handler makes, and
the two uptime counters in seconds (`process.uptime()`, `os.uptime()`). -/
structure Env where
  nodeEnv : String
  staticFiles : List String
  totalmem : ℚ
  freemem : ℚ
  cpuRand : ℚ
  diskUsedRand : ℚ
  diskFreeRand : ℚ
  netRand : ℚ
  processUptime : ℚ
  osUptime : ℚ
deriving DecidableEq

/-- The stats payload of `GET /api/stats` (src/index.js lines 69-96),
field by field.  Numeric JSON fields that the code produces with
`Math.floor` are integers; `network.traffic` is produced with `toFixed(1)`
and is therefore a JSON string. -/
structure Stats where
  cpu_usage : ℤ
  memory_total : ℤ
  memory_free : ℤ
  memory_usage : ℤ
  disk_total : ℤ
  disk_used : ℤ
  disk_free : ℤ
  network_traffic : JsVal
  uptime_server : String
  uptime_system : String
deriving DecidableEq

/-- The stats object built by the `GET /api/stats` handler:
`cpu.usage = Math.floor(Math.random() * 100)`;
`memory.total/free = Math.floor(os.xxxmem() / 1024 / 1024)`;
`memory.usage = Math.floor((1 - os.freemem() / os.totalmem()) * 100)`;
`disk = {total: 500, used/free: Math.floor(Math.random() * 200 + 100)}`;
`network.traffic = (Math.random() * 10).toFixed(1)`;
`uptime = {server: formatUptime(process.uptime()), system:
formatUptime(os.uptime())}`. -/
def mkStats (env : Env) : Stats where
  cpu_usage := ⌊env.cpuRand * 100⌋
  memory_total := ⌊env.totalmem / 1024 / 1024⌋
  memory_free := ⌊env.freemem / 1024 / 1024⌋
  memory_usage := ⌊(1 - env.freemem / env.totalmem) * 100⌋
  disk_total := 500
  disk_used := ⌊env.diskUsedRand * 200 + 100⌋
  disk_free := ⌊env.diskFreeRand * 200 + 100⌋
  network_traffic := JsVal.str (toFixed1 (env.netRand * 10))
  uptime_server := formatUptime env.processUptime
  uptime_system := formatUptime env.osUptime

/-- The JSON response bodies this server can produce (timestamps omitted:
they are real-time values outside the embedding). -/
inductive RespBody where
  | staticFile
  | health (status : String) (uptimeSeconds : ℚ)
  | stats (s : Stats)
  | control (success : Bool) (message : String)
  | jsonErr (error : String) (message : String)
deriving DecidableEq

/-- An HTTP response: status code and JSON body. -/
structure Response where
  status : ℕ
  body : RespBody
deriving DecidableEq

/-- The error-handling middleware (src/index.js lines 145-151): always
status 500, error field `Something went wrong!`, and the message is the
raw failure description unless `NODE_ENV === 'production'`, in which case
it is the fixed string `Server error`. -/
def errorHandler (nodeEnv : String) (errMessage : String) : Response where
  status := 500
  body := RespBody.jsonErr ("Something went wrong!")
    (if nodeEnv = "production" then "Server error" else errMessage)

/-- A control-endpoint success response (src/index.js lines 103-142):
`res.json` defaults to status 200 with `{success: true, message}`. -/
def controlResponse (message : String) : Response where
  status := 200
  body := RespBody.control true message

/-- The 404 catch-all (src/index.js lines 154-159). -/
def notFoundResponse (path : String) : Response where
  status := 404
  body := RespBody.jsonErr ("Not Found")
    ("The requested resource at " ++ path ++ " was not found")

/-- The full request pipeline of src/index.js in middleware order.
A JSON body-parse failure inside `express.json()` is forwarded as an error
to the next error-handling middleware, skipping every route handler (this
forwarding step is Express/body-parser semantics; the error middleware it
lands in is the one at lines 145-151).  Otherwise: `express.static` serves
GET requests for existing public files, then the routes at lines 55-142 are
tried in order, and the catch-all at lines 154-159 answers 404. -/
def handle (env : Env) (req : Request) : Response :=
  match req.body with
  | .malformedJson errMsg => errorHandler env.nodeEnv errMsg
  | _ =>
    if req.method = .get ∧ req.path ∈ env.staticFiles then
      { status := 200, body := RespBody.staticFile }
    else if req.method = .get ∧ req.path = "/" then
      { status := 200, body := RespBody.staticFile }
    else if req.method = .get ∧ req.path = "/api/health" then
      { status := 200, body := RespBody.health ("OK") env.processUptime }
    else if req.method = .get ∧ req.path = "/api/stats" then
      { status := 200, body := RespBody.stats (mkStats env) }
    else if req.method = .post ∧ req.path = "/api/control/start" then
      controlResponse ("Server started successfully")
    else if req.method = .post ∧ req.path = "/api/control/stop" then
      controlResponse ("Server stopped successfully")
    else if req.method = .post ∧ req.path = "/api/control/restart" then
      controlResponse ("Server restarted successfully")
    else
      notFoundResponse req.path

/-- A concrete host environment used to instantiate the general theorems:
1 GiB total memory, half of it free, all random draws 1/2 except the
network draw 7/20, process uptime 90000 s and system uptime 125 s. -/
def sampleEnv : Env where
  nodeEnv := "development"
  staticFiles := []
  totalmem := 1073741824
  freemem := 536870912
  cpuRand := 1/2
  diskUsedRand := 1/2
  diskFreeRand := 1/2
  netRand := 7/20
  processUptime := 90000
  osUptime := 125

/-- A host environment whose memory ratio makes flooring and rounding
disagree: `(1 - 25/1000) * 100 = 97.5`. -/
def envC4 : Env where
  nodeEnv := "development"
  staticFiles := []
  totalmem := 1000
  freemem := 25
  cpuRand := 0
  diskUsedRand := 0
  diskFreeRand := 0
  netRand := 0
  processUptime := 0
  osUptime := 0

/-- A plain stats request. -/
def statsReq : Request where
  method := Method.get
  path := "/api/stats"
  body := ReqBody.empty

/-- A start-control request carrying a well-formed JSON body. -/
def startReq : Request where
  method := Method.post
  path := "/api/control/start"
  body := ReqBody.wellFormedJson

/-- A request for a path that matches no route. -/
def missingReq : Request where
  method := Method.get
  path := "/no/such/path"
  body := ReqBody.empty

/-- A start-control request whose JSON body fails to parse. -/
def malformedStartReq : Request where
  method := Method.post
  path := "/api/control/start"
  body := ReqBody.malformedJson ("Unexpected token i in JSON at position 2")

/-- A request to an unmatched path whose JSON body fails to parse. -/
def malformedMissingReq : Request where
  method := Method.post
  path := "/no/such/path"
  body := ReqBody.malformedJson ("Unexpected token i in JSON at position 2")

theorem jsTrunc_eq_floor (q : ℚ) (h : 0 ≤ q) : jsTrunc q = ⌊q⌋ := by
  simp [jsTrunc, h]

theorem jsMod_eq_specMod (a b : ℚ) (ha : 0 ≤ a) (hb : 0 < b) :
    jsMod a b = specMod a b := by
  unfold jsMod specMod
  rw [jsTrunc_eq_floor _ (div_nonneg ha hb.le)]

/-- Routing helper: a parseable GET request for `/api/stats` that no public
file shadows reaches the stats handler. -/
theorem handle_get_stats (env : Env) (req : Request)
    (hb : req.body.parsesOk = true) (hm : req.method = Method.get)
    (hp : req.path = "/api/stats") (hns : req.path ∉ env.staticFiles) :
    handle env req = { status := 200, body := RespBody.stats (mkStats env) } := by
  obtain ⟨m, p, b⟩ := req
  dsimp only at hb hm hp hns
  subst hm hp
  cases b <;> simp_all [handle, ReqBody.parsesOk]

/-- Claim C1: for every non-negative seconds value, the uptime humanization
of the source computes days, hours and minutes by the specification's
floor/mod formulas and concatenates a day clause only when `days > 0`, an
hour clause only when `hours > 0`, and always a final minutes clause with
no trailing separator, pluralizing a unit word exactly when its count
exceeds 1. -/
theorem formatUptime_follows_spec (s : ℚ) (h : 0 ≤ s) :
    formatUptime s = specFormatUptime s := by
  have e1 : (3600 * 24 : ℚ) = 86400 := by norm_num
  have hm1 : jsMod s 86400 = specMod s 86400 := jsMod_eq_specMod s 86400 h (by norm_num)
  have hm2 : jsMod s 3600 = specMod s 3600 := jsMod_eq_specMod s 3600 h (by norm_num)
  simp only [formatUptime, specFormatUptime, specClause, e1, hm1, hm2]
  by_cases h1 : (0:ℤ) < ⌊s / 86400⌋ <;>
    by_cases h2 : (0:ℤ) < ⌊specMod s 86400 / 3600⌋ <;>
      simp [h1, h2, String.append_assoc, String.empty_append]

/-- Witness for C1 at 90000 seconds. -/
theorem formatUptime_follows_spec_witness :
    0 ≤ (90000 : ℚ) ∧ formatUptime 90000 = specFormatUptime 90000 :=
  ⟨by norm_num, formatUptime_follows_spec 90000 (by norm_num)⟩

/-- Counterexample to claim C2: the code pluralizes only for counts
greater than 1, so `formatUptime 59` is the singular string `0 minute`,
not `0 minutes` as the specification's format law asserts. -/
theorem format_laws_counterexample :
    ¬ (formatUptime 125 = "2 minutes" ∧ formatUptime 3660 = "1 hour, 1 minute"
      ∧ formatUptime 90000 = "1 day, 1 hour, 0 minutes"
      ∧ formatUptime 59 = "0 minutes") := by
  have h : formatUptime 59 = "0 minute" := by
    norm_num [formatUptime, jsMod, jsTrunc]
    decide
  intro hc
  rw [h] at hc
  exact absurd hc.2.2.2 (by decide)

/-- Claim C2 as amended: the four format-law equations with the zero-count
clauses rendered singular (`0 minute`), as the code's `> 1` pluralization
rule produces. -/
theorem format_laws_corrected :
    formatUptime 125 = "2 minutes" ∧ formatUptime 3660 = "1 hour, 1 minute"
      ∧ formatUptime 90000 = "1 day, 1 hour, 0 minute"
      ∧ formatUptime 59 = "0 minute" := by
  refine ⟨?_, ?_, ?_, ?_⟩ <;>
    · norm_num [formatUptime, jsMod, jsTrunc]
      decide

/-- Claim C3 evaluated on the code: a POST to `/api/control/start` whose
JSON body fails to parse is answered by the error-handling middleware of
src/index.js lines 145-151, which unconditionally sets status 500 — not
the 400 the specification (and the repository's own test suite) expect. -/
theorem malformed_json_yields_500 :
    handle sampleEnv malformedStartReq =
      { status := 500
      , body := RespBody.jsonErr ("Something went wrong!")
          ("Unexpected token i in JSON at position 2") } ∧
    (handle sampleEnv malformedStartReq).status ≠ 400 := by
  exact ⟨by decide, by decide⟩

/-- Counterexample to claim C4: with 1000 bytes total and 25 bytes free,
`(1 - free/total) * 100 = 97.5`; the code's `Math.floor` yields 97 while
the specification's `round` formula yields 98. -/
theorem memory_usage_rounding_counterexample :
    handle envC4 statsReq = { status := 200, body := RespBody.stats (mkStats envC4) } ∧
    (mkStats envC4).memory_usage = 97 ∧
    round ((1 - envC4.freemem / envC4.totalmem) * 100) = 98 := by
  refine ⟨handle_get_stats envC4 statsReq (by decide) (by decide) (by decide) (by decide),
    ?_, ?_⟩
  · norm_num [mkStats, envC4]
  · norm_num [envC4, round_eq]

/-- Claim C4 as amended: for every `GET /api/stats` response, the
`memory.usage` field equals `floor((1 - free/total) * 100)` (not `round`)
of the memory values the handler observes. -/
theorem memory_usage_is_floor (env : Env) (req : Request)
    (hb : req.body.parsesOk = true) (hm : req.method = Method.get)
    (hp : req.path = "/api/stats") (hns : req.path ∉ env.staticFiles) :
    handle env req = { status := 200, body := RespBody.stats (mkStats env) } ∧
    (mkStats env).memory_usage = ⌊(1 - env.freemem / env.totalmem) * 100⌋ :=
  ⟨handle_get_stats env req hb hm hp hns, rfl⟩

/-- Witness for the amended C4 at the sample environment. -/
theorem memory_usage_is_floor_witness :
    handle sampleEnv statsReq = { status := 200, body := RespBody.stats (mkStats sampleEnv) } ∧
    (mkStats sampleEnv).memory_usage = ⌊(1 - sampleEnv.freemem / sampleEnv.totalmem) * 100⌋ :=
  memory_usage_is_floor sampleEnv statsReq (by decide) (by decide) (by decide) (by decide)

/-- Counterexample to claim C5: in the sample environment the network
traffic field of the stats payload is the JSON string `3.5` produced by
`toFixed(1)`, and is not a numeric JSON value at all. -/
theorem traffic_not_numeric_counterexample :
    handle sampleEnv statsReq = { status := 200, body := RespBody.stats (mkStats sampleEnv) } ∧
    (mkStats sampleEnv).network_traffic = JsVal.str ("3.5") ∧
    ¬ ∃ q : ℚ, (mkStats sampleEnv).network_traffic = JsVal.num q := by
  refine ⟨handle_get_stats sampleEnv statsReq (by decide) (by decide) (by decide) (by decide),
    ?_, ?_⟩
  · norm_num [mkStats, sampleEnv, toFixed1, round_eq]
    decide
  · rintro ⟨q, hq⟩
    simp [mkStats] at hq

/-- Claim C5 as amended: for every `GET /api/stats` response the network
traffic field is a JSON string — never a number — namely the one-decimal
`toFixed` rendering of a value in `[0, 10)`. -/
theorem traffic_is_toFixed_string (env : Env) (req : Request)
    (hb : req.body.parsesOk = true) (hm : req.method = Method.get)
    (hp : req.path = "/api/stats") (hns : req.path ∉ env.staticFiles)
    (hn0 : 0 ≤ env.netRand) (hn1 : env.netRand < 1) :
    handle env req = { status := 200, body := RespBody.stats (mkStats env) } ∧
    (∀ q : ℚ, (mkStats env).network_traffic ≠ JsVal.num q) ∧
    ∃ q : ℚ, 0 ≤ q ∧ q < 10 ∧ (mkStats env).network_traffic = JsVal.str (toFixed1 q) := by
  refine ⟨handle_get_stats env req hb hm hp hns, ?_, ?_⟩
  · intro q h
    simp [mkStats] at h
  · exact ⟨env.netRand * 10, mul_nonneg hn0 (by norm_num), by nlinarith, rfl⟩

/-- Witness for the amended C5 at the sample environment. -/
theorem traffic_is_toFixed_string_witness :
    handle sampleEnv statsReq = { status := 200, body := RespBody.stats (mkStats sampleEnv) } ∧
    (∀ q : ℚ, (mkStats sampleEnv).network_traffic ≠ JsVal.num q) ∧
    ∃ q : ℚ, 0 ≤ q ∧ q < 10 ∧ (mkStats sampleEnv).network_traffic = JsVal.str (toFixed1 q) :=
  traffic_is_toFixed_string sampleEnv statsReq (by decide) (by decide) (by decide) (by decide)
    (by norm_num [sampleEnv]) (by norm_num [sampleEnv])

/-- Claim C6: every POST request that reaches one of the three control
routes — whatever its (parseable or absent) body — is answered 200 with
`success = true` and the fixed per-action message; the handlers validate
nothing and the embedding is a pure function of the request, touching no
process state. -/
theorem control_endpoints_unconditional (env : Env) (req : Request)
    (hb : req.body.parsesOk = true) (hm : req.method = Method.post) :
    (req.path = "/api/control/start" →
      handle env req = { status := 200, body := RespBody.control true ("Server started successfully") }) ∧
    (req.path = "/api/control/stop" →
      handle env req = { status := 200, body := RespBody.control true ("Server stopped successfully") }) ∧
    (req.path = "/api/control/restart" →
      handle env req = { status := 200, body := RespBody.control true ("Server restarted successfully") }) := by
  obtain ⟨m, p, b⟩ := req
  dsimp only at hb hm ⊢
  subst hm
  refine ⟨?_, ?_, ?_⟩ <;> intro hp <;> subst hp <;>
    cases b <;> simp_all [handle, ReqBody.parsesOk, controlResponse]

/-- Witness for C6: a start request carrying a well-formed JSON body. -/
theorem control_endpoints_unconditional_witness :
    handle sampleEnv startReq = { status := 200, body := RespBody.control true ("Server started successfully") } :=
  (control_endpoints_unconditional sampleEnv startReq (by decide) (by decide)).1 (by decide)

/-- Counterexample to claim C7 as universally quantified: a POST to the
unmatched path `/no/such/path` whose JSON body fails to parse is answered
by the body-parsing layer and the error middleware with status 500, never
reaching the 404 catch-all. -/
theorem unmatched_route_counterexample :
    (handle sampleEnv malformedMissingReq).status = 500 ∧
    (handle sampleEnv malformedMissingReq).status ≠ 404 :=
  ⟨by decide, by decide⟩

/-- Claim C7 as amended: every request whose body the parsing layer
accepts, and whose method and path match no route and no static file, is
answered 404 with the structured body naming the literal request path. -/
theorem unmatched_routes_404 (env : Env) (req : Request)
    (hb : req.body.parsesOk = true)
    (hstatic : ¬ (req.method = Method.get ∧ req.path ∈ env.staticFiles))
    (hroot : ¬ (req.method = Method.get ∧ req.path = "/"))
    (hhealth : ¬ (req.method = Method.get ∧ req.path = "/api/health"))
    (hstats : ¬ (req.method = Method.get ∧ req.path = "/api/stats"))
    (hstart : ¬ (req.method = Method.post ∧ req.path = "/api/control/start"))
    (hstop : ¬ (req.method = Method.post ∧ req.path = "/api/control/stop"))
    (hrestart : ¬ (req.method = Method.post ∧ req.path = "/api/control/restart")) :
    handle env req =
      { status := 404
      , body := RespBody.jsonErr ("Not Found")
          ("The requested resource at " ++ req.path ++ " was not found") } := by
  obtain ⟨m, p, b⟩ := req
  dsimp only at hb hstatic hroot hhealth hstats hstart hstop hrestart ⊢
  cases b
  · simp only [handle]
    rw [if_neg hstatic, if_neg hroot, if_neg hhealth, if_neg hstats,
        if_neg hstart, if_neg hstop, if_neg hrestart]
    rfl
  · simp only [handle]
    rw [if_neg hstatic, if_neg hroot, if_neg hhealth, if_neg hstats,
        if_neg hstart, if_neg hstop, if_neg hrestart]
    rfl
  · simp [ReqBody.parsesOk] at hb

/-- Witness for the amended C7: `GET /no/such/path` with an empty body. -/
theorem unmatched_routes_404_witness :
    handle sampleEnv missingReq =
      { status := 404
      , body := RespBody.jsonErr ("Not Found")
          ("The requested resource at /no/such/path was not found") } :=
  (unmatched_routes_404 sampleEnv missingReq (by decide) (by decide) (by decide)
    (by decide) (by decide) (by decide) (by decide) (by decide)).trans (by decide)

/-- Claim C8: with the host reporting `0 < free ≤ total` and each
`Math.random()` draw in `[0, 1)`, every `GET /api/stats` response
satisfies `memory.free ≤ memory.total`, `0 ≤ memory.usage ≤ 100`,
`0 ≤ cpu.usage ≤ 100`, and each disk figure is strictly positive. -/
theorem stats_invariants (env : Env) (req : Request)
    (hb : req.body.parsesOk = true) (hm : req.method = Method.get)
    (hp : req.path = "/api/stats") (hns : req.path ∉ env.staticFiles)
    (hfree : 0 < env.freemem) (hmem : env.freemem ≤ env.totalmem)
    (hc0 : 0 ≤ env.cpuRand) (hc1 : env.cpuRand < 1)
    (hd0 : 0 ≤ env.diskUsedRand) (hd1 : env.diskUsedRand < 1)
    (he0 : 0 ≤ env.diskFreeRand) (he1 : env.diskFreeRand < 1) :
    handle env req = { status := 200, body := RespBody.stats (mkStats env) } ∧
    (mkStats env).memory_free ≤ (mkStats env).memory_total ∧
    (0 ≤ (mkStats env).memory_usage ∧ (mkStats env).memory_usage ≤ 100) ∧
    (0 ≤ (mkStats env).cpu_usage ∧ (mkStats env).cpu_usage ≤ 100) ∧
    0 < (mkStats env).disk_total ∧ 0 < (mkStats env).disk_used ∧
    0 < (mkStats env).disk_free := by
  have htpos : 0 < env.totalmem := lt_of_lt_of_le hfree hmem
  refine ⟨handle_get_stats env req hb hm hp hns, ?_, ⟨?_, ?_⟩, ⟨?_, ?_⟩, ?_, ?_, ?_⟩
  · show ⌊env.freemem / 1024 / 1024⌋ ≤ ⌊env.totalmem / 1024 / 1024⌋
    apply Int.floor_le_floor
    gcongr
  · show 0 ≤ ⌊(1 - env.freemem / env.totalmem) * 100⌋
    apply Int.floor_nonneg.mpr
    have h1 : env.freemem / env.totalmem ≤ 1 := (div_le_one htpos).mpr hmem
    nlinarith
  · show ⌊(1 - env.freemem / env.totalmem) * 100⌋ ≤ 100
    have h2 : 0 ≤ env.freemem / env.totalmem := div_nonneg hfree.le htpos.le
    have h3 : (1 - env.freemem / env.totalmem) * 100 ≤ 100 := by nlinarith
    exact (Int.floor_le_floor h3).trans_eq (by norm_num)
  · show 0 ≤ ⌊env.cpuRand * 100⌋
    exact Int.floor_nonneg.mpr (by nlinarith)
  · show ⌊env.cpuRand * 100⌋ ≤ 100
    have h4 : ⌊env.cpuRand * 100⌋ < 100 := Int.floor_lt.mpr (by push_cast; nlinarith)
    omega
  · show (0:ℤ) < 500
    norm_num
  · show 0 < ⌊env.diskUsedRand * 200 + 100⌋
    have h5 : (100:ℤ) ≤ ⌊env.diskUsedRand * 200 + 100⌋ :=
      Int.le_floor.mpr (by push_cast; nlinarith)
    omega
  · show 0 < ⌊env.diskFreeRand * 200 + 100⌋
    have h6 : (100:ℤ) ≤ ⌊env.diskFreeRand * 200 + 100⌋ :=
      Int.le_floor.mpr (by push_cast; nlinarith)
    omega

/-- Witness for C8 at the sample environment. -/
theorem stats_invariants_witness :
    handle sampleEnv statsReq = { status := 200, body := RespBody.stats (mkStats sampleEnv) } ∧
    (mkStats sampleEnv).memory_free ≤ (mkStats sampleEnv).memory_total ∧
    (0 ≤ (mkStats sampleEnv).memory_usage ∧ (mkStats sampleEnv).memory_usage ≤ 100) ∧
    (0 ≤ (mkStats sampleEnv).cpu_usage ∧ (mkStats sampleEnv).cpu_usage ≤ 100) ∧
    0 < (mkStats sampleEnv).disk_total ∧ 0 < (mkStats sampleEnv).disk_used ∧
    0 < (mkStats sampleEnv).disk_free :=
  stats_invariants sampleEnv statsReq (by decide) (by decide) (by decide) (by decide)
    (by norm_num [sampleEnv]) (by norm_num [sampleEnv]) (by norm_num [sampleEnv])
    (by norm_num [sampleEnv]) (by norm_num [sampleEnv]) (by norm_num [sampleEnv])
    (by norm_num [sampleEnv]) (by norm_num [sampleEnv])

/-- Claim C9: every failure reaching the top-level error handler is
answered 500 with error `Something went wrong!`; the message is the raw
failure description unless NODE_ENV is `production`, in which case it is
`Server error`; and two NODE_ENV values agreeing on the production flag
produce identical responses for the same failure. -/
theorem error_handler_production_flag (nodeEnv errMsg : String) :
    (errorHandler nodeEnv errMsg).status = 500 ∧
    (errorHandler nodeEnv errMsg).body =
      RespBody.jsonErr ("Something went wrong!")
        (if nodeEnv = "production" then "Server error" else errMsg) ∧
    ∀ e2 : String, ((nodeEnv = "production") ↔ (e2 = "production")) →
      errorHandler nodeEnv errMsg = errorHandler e2 errMsg := by
  refine ⟨rfl, rfl, ?_⟩
  intro e2 hiff
  by_cases h : nodeEnv = "production"
  · have h2 := hiff.mp h
    simp [errorHandler, h, h2]
  · have h2 : ¬ e2 = "production" := fun he => h (hiff.mpr he)
    simp [errorHandler, h, h2]

/-- Witness for C9: a non-production NODE_ENV passes the failure text
through, and another non-production NODE_ENV gives the same response. -/
theorem error_handler_production_flag_witness :
    (errorHandler ("development") ("boom")).status = 500 ∧
    errorHandler ("development") ("boom") = errorHandler ("test") ("boom") :=
  ⟨(error_handler_production_flag ("development") ("boom")).1,
    (error_handler_production_flag ("development") ("boom")).2.2 ("test") (by decide)⟩

/-- Claim C10: with each `Math.random()` draw in `[0, 1)`, the synthetic
stats fields live in the narrower ranges the code fixes: `cpu.usage` in
`[0, 99]` (100 is never produced), `disk.total` exactly 500, and
`disk.used`, `disk.free` each in `[100, 299]`. -/
theorem stats_narrow_ranges (env : Env) (req : Request)
    (hb : req.body.parsesOk = true) (hm : req.method = Method.get)
    (hp : req.path = "/api/stats") (hns : req.path ∉ env.staticFiles)
    (hc0 : 0 ≤ env.cpuRand) (hc1 : env.cpuRand < 1)
    (hd0 : 0 ≤ env.diskUsedRand) (hd1 : env.diskUsedRand < 1)
    (he0 : 0 ≤ env.diskFreeRand) (he1 : env.diskFreeRand < 1) :
    handle env req = { status := 200, body := RespBody.stats (mkStats env) } ∧
    (0 ≤ (mkStats env).cpu_usage ∧ (mkStats env).cpu_usage ≤ 99) ∧
    (mkStats env).disk_total = 500 ∧
    (100 ≤ (mkStats env).disk_used ∧ (mkStats env).disk_used ≤ 299) ∧
    (100 ≤ (mkStats env).disk_free ∧ (mkStats env).disk_free ≤ 299) := by
  refine ⟨handle_get_stats env req hb hm hp hns, ⟨?_, ?_⟩, rfl, ⟨?_, ?_⟩, ⟨?_, ?_⟩⟩
  · show 0 ≤ ⌊env.cpuRand * 100⌋
    exact Int.floor_nonneg.mpr (by nlinarith)
  · show ⌊env.cpuRand * 100⌋ ≤ 99
    have h4 : ⌊env.cpuRand * 100⌋ < 100 := Int.floor_lt.mpr (by push_cast; nlinarith)
    omega
  · show (100:ℤ) ≤ ⌊env.diskUsedRand * 200 + 100⌋
    exact Int.le_floor.mpr (by push_cast; nlinarith)
  · show ⌊env.diskUsedRand * 200 + 100⌋ ≤ 299
    have h5 : ⌊env.diskUsedRand * 200 + 100⌋ < 300 := Int.floor_lt.mpr (by push_cast; nlinarith)
    omega
  · show (100:ℤ) ≤ ⌊env.diskFreeRand * 200 + 100⌋
    exact Int.le_floor.mpr (by push_cast; nlinarith)
  · show ⌊env.diskFreeRand * 200 + 100⌋ ≤ 299
    have h6 : ⌊env.diskFreeRand * 200 + 100⌋ < 300 := Int.floor_lt.mpr (by push_cast; nlinarith)
    omega

/-- Witness for C10 at the sample environment. -/
theorem stats_narrow_ranges_witness :
    handle sampleEnv statsReq = { status := 200, body := RespBody.stats (mkStats sampleEnv) } ∧
    (0 ≤ (mkStats sampleEnv).cpu_usage ∧ (mkStats sampleEnv).cpu_usage ≤ 99) ∧
    (mkStats sampleEnv).disk_total = 500 ∧
    (100 ≤ (mkStats sampleEnv).disk_used ∧ (mkStats sampleEnv).disk_used ≤ 299) ∧
    (100 ≤ (mkStats sampleEnv).disk_free ∧ (mkStats sampleEnv).disk_free ≤ 299) :=
  stats_narrow_ranges sampleEnv statsReq (by decide) (by decide) (by decide) (by decide)
    (by norm_num [sampleEnv]) (by norm_num [sampleEnv]) (by norm_num [sampleEnv])
    (by norm_num [sampleEnv]) (by norm_num [sampleEnv]) (by norm_num [sampleEnv])

end CloudServer
